/-
Verification of the BirdWeather Dashboard incremental synchronization engine.

This file gives a shallow embedding, in Lean 4, of the engine's core
operations, translated from the Python sources:

  dashboard/utils/database.py      (add_bird_species, update_database)
  dashboard/utils/birdweather_api.py (get_bird_species_info, as observed by its caller)
  dashboard/utils/nws_api.py       (find_closest_station, get_or_update_weather_config,
                                    update_forecast, get_current_conditions,
                                    the unit-conversion constants)
  dashboard/models/bird.py         (Bird.from_api_data)
  dashboard/models/metadata.py     (the last_detection_date watermark)

Modelling conventions:
  - Remote API calls are abstracted as explicit inputs: the detection
    statistics list, the species-info fetch oracle, the NWS point/station
    responses.  A raised exception or an empty falsy payload is a distinct
    constructor where the caller distinguishes them.
  - Python float coordinates and measurements are modelled as exact
    rationals; Python timestamp strings stay strings, compared with the
    same lexicographic order Python uses for str comparison.
  - Database state is explicit: the bird table is a list of rows, the
    metadata watermark an optional string, the forecast table a list of
    rows.  SQLAlchemy commit/rollback becomes returning either the updated
    or the unchanged state.
  - Python truthiness tests on strings (None and "" are falsy) are modelled
    by the truthyStr helper.
-/

import Mathlib

/-! ## Detection sync: data model (database.py, bird.py, metadata.py) -/

/-- Species metadata as returned by birdweather_api.get_bird_species_info
when the GraphQL query succeeds and a species payload is present
(the snake_case result dictionary). -/
structure SpeciesInfo where
  birdweather_url : Option String
  color : Option String
  common_name : Option String
  ebird_url : Option String
  image_url : Option String
  scientific_name : Option String
  thumbnail_url : Option String
  wikipedia_summary : Option String
  wikipedia_url : Option String
deriving DecidableEq

/-- The three outcomes of get_bird_species_info as its caller
add_bird_species observes them: the call raised (request failure or a
GraphQL error payload), returned the falsy empty dictionary (no species
data for the id), or returned a usable record. -/
inductive SpeciesFetch where
  | raised : SpeciesFetch
  | empty : SpeciesFetch
  | ok : SpeciesInfo → SpeciesFetch
deriving DecidableEq

/-- A row of the birds table (models/bird.py). -/
structure Bird where
  species_id : String
  common : Bool
  birdweather_url : Option String
  common_name : Option String
  ebird_url : Option String
  scientific_name : Option String
  wikipedia_summary : Option String
  wikipedia_url : Option String
deriving DecidableEq

/-- Bird.from_api_data (models/bird.py): build a row from the API
dictionary whose id field add_bird_species has set to the species id. -/
def Bird.from_api_data (id : String) (info : SpeciesInfo) : Bird :=
  { species_id := id
    common := false
    birdweather_url := info.birdweather_url
    common_name := info.common_name
    ebird_url := info.ebird_url
    scientific_name := info.scientific_name
    wikipedia_summary := info.wikipedia_summary
    wikipedia_url := info.wikipedia_url }

/-- One entry of the list returned by get_species_detection_stats: the
species id, the detection count over the query period, and the timestamp
of the most recent detection (absent when no detection was found). -/
structure SpeciesStat where
  species_id : Option String
  count : Nat
  latest_detection : Option String
deriving DecidableEq

/-- Python truthiness of an optional string: None and "" are falsy. -/
def truthyStr : Option String → Option String
  | none => none
  | some s => if s = "" then none else some s

/-- The durable state update_database touches: the birds table and the
last_detection_date metadata value. -/
structure SyncState where
  birds : List Bird
  last_detection_date : Option String
deriving DecidableEq

/-- The statistics dictionary update_database returns. -/
structure SyncStats where
  detections_processed : Nat
  new_species_added : Nat
  total_detections : Nat
  last_detection_date : Option String
deriving DecidableEq

/-- add_bird_species (database.py): fetch species info; on a raised error
or a falsy payload return none and leave the table unchanged; otherwise
insert the new row (marked not common) and return it. -/
def add_bird_species (fetch : String → SpeciesFetch) (birds : List Bird)
    (species_id : String) : List Bird × Option Bird :=
  match fetch species_id with
  | SpeciesFetch.raised => (birds, none)
  | SpeciesFetch.empty => (birds, none)
  | SpeciesFetch.ok info =>
      let bird := { Bird.from_api_data species_id info with common := false }
      (birds ++ [bird], some bird)

/-- The running state of update_database's per-species loop. -/
structure SyncLoop where
  birds : List Bird
  newest_detection_date : String
  detections_processed : Nat
  new_species_added : Nat
deriving DecidableEq

/-- One iteration of update_database's loop over the detection statistics:
skip entries with a falsy species id; raise the newest-detection tracker
when a truthy latest_detection compares greater (Python string order);
enrich the species if it is not in the table yet; count its detections. -/
def process_species_stat (fetch : String → SpeciesFetch) (acc : SyncLoop)
    (s : SpeciesStat) : SyncLoop :=
  match truthyStr s.species_id with
  | none => acc
  | some sid =>
    let newest :=
      match truthyStr s.latest_detection with
      | some l => if acc.newest_detection_date < l then l else acc.newest_detection_date
      | none => acc.newest_detection_date
    let step :=
      if acc.birds.any fun b => b.species_id == sid then (acc.birds, 0)
      else
        match add_bird_species fetch acc.birds sid with
        | (birds2, some _) => (birds2, 1)
        | (birds2, none) => (birds2, 0)
    { birds := step.1
      newest_detection_date := newest
      detections_processed := acc.detections_processed + s.count
      new_species_added := acc.new_species_added + step.2 }

/-- update_database's loop over the whole statistics list, in list order. -/
def process_species_stats (fetch : String → SpeciesFetch) :
    List SpeciesStat → SyncLoop → SyncLoop
  | [], acc => acc
  | s :: rest, acc => process_species_stats fetch rest (process_species_stat fetch acc s)

/-- update_database (database.py).  The remote call
get_species_detection_stats is abstracted as its outcome: an exception or
the statistics list.  When the stored watermark is falsy the run returns
zero statistics untouched; when the remote call raises, the inner handler
leaves state and statistics unchanged; otherwise the loop runs and the
watermark advances exactly when the newest observed timestamp compares
strictly greater than the stored one. -/
def update_database (fetch : String → SpeciesFetch) (st : SyncState)
    (api : Except Unit (List SpeciesStat)) : SyncState × SyncStats :=
  let stats0 : SyncStats :=
    { detections_processed := 0, new_species_added := 0
      total_detections := 0, last_detection_date := none }
  match truthyStr st.last_detection_date with
  | none => (st, stats0)
  | some last =>
    match api with
    | Except.error _ => (st, stats0)
    | Except.ok species_stats_list =>
      let total := (species_stats_list.map fun s => s.count).sum
      let loop := process_species_stats fetch species_stats_list
        { birds := st.birds, newest_detection_date := last
          detections_processed := 0, new_species_added := 0 }
      let newest := loop.newest_detection_date
      if last < newest then
        ({ birds := loop.birds, last_detection_date := some newest },
         { detections_processed := loop.detections_processed
           new_species_added := loop.new_species_added
           total_detections := total
           last_detection_date := some newest })
      else
        ({ birds := loop.birds, last_detection_date := st.last_detection_date },
         { detections_processed := loop.detections_processed
           new_species_added := loop.new_species_added
           total_detections := total
           last_detection_date := none })

/-- The latest_detection values the loop actually compares against the
newest-detection tracker: those of entries whose species id is truthy,
themselves truthy. -/
def validLatests (l : List SpeciesStat) : List String :=
  l.filterMap fun s =>
    match truthyStr s.species_id with
    | none => none
    | some _ => truthyStr s.latest_detection

/-- The detection counts the loop adds to detections_processed: the counts
of entries whose species id is truthy. -/
def validCountSum (l : List SpeciesStat) : Nat :=
  (l.map fun s =>
    match truthyStr s.species_id with
    | none => 0
    | some _ => s.count).sum

/-! ## Weather resolver: data model (nws_api.py) -/

/-- The point metadata get_nws_point_data extracts from a successful
GET /points response.  A failed request yields the falsy empty dictionary,
modelled as none at the call site. -/
structure PointData where
  wfo : Option String
  grid_x : Option Int
  grid_y : Option Int
  forecast_url : Option String
  observation_stations_url : Option String
deriving DecidableEq

/-- The dictionary find_closest_station returns for the winning station. -/
structure ClosestStation where
  station_id : String
  distance : ℚ
  conditions_url : String
deriving DecidableEq

/-- One feature of the observation-stations listing: its geometry
coordinates (given as longitude, latitude) and its station identifier. -/
structure StationFeature where
  coordinates : List ℚ
  stationIdentifier : Option String
deriving DecidableEq

/-- The conditions URL find_closest_station builds for a station id. -/
def stationConditionsUrl (sid : String) : String :=
  "https://api.weather.gov/stations/" ++ sid ++ "/observations/latest"

/-- The candidate extraction inside find_closest_station's loop: an entry
with fewer than two coordinates is skipped, and so is one failing the
Python truthiness test all of latitude, longitude and identifier, which
rejects a missing identifier, the empty identifier, and a latitude or
longitude equal to zero. -/
def station_candidate (s : StationFeature) : Option (ℚ × ℚ × String) :=
  match s.coordinates with
  | slon :: slat :: _ =>
    match s.stationIdentifier with
    | some sid =>
        if slat ≠ 0 ∧ slon ≠ 0 ∧ sid ≠ "" then some (slat, slon, sid) else none
    | none => none
  | _ => none

/-- find_closest_station's fold over the station listing: the accumulator
holds the closest station seen so far (none plays the role of the infinite
initial min_distance), replaced exactly when a candidate's distance is
strictly smaller.  The distance function is a parameter standing for
haversine_distance, whose transcendental floating-point computation is
kept abstract; every theorem below holds for an arbitrary distance
function, the haversine one included. -/
def closest_loop (dist : ℚ → ℚ → ℚ → ℚ → ℚ) (lat lon : ℚ) :
    List StationFeature → Option ClosestStation → Option ClosestStation
  | [], best => best
  | s :: rest, best =>
    match station_candidate s with
    | none => closest_loop dist lat lon rest best
    | some (slat, slon, sid) =>
      let d := dist lat lon slat slon
      let best2 :=
        match best with
        | none =>
            some { station_id := sid, distance := d
                   conditions_url := stationConditionsUrl sid }
        | some b =>
            if d < b.distance then
              some { station_id := sid, distance := d
                     conditions_url := stationConditionsUrl sid }
            else some b
      closest_loop dist lat lon rest best2

/-- find_closest_station (nws_api.py), over an already-fetched station
listing: none models the falsy empty dictionary returned when no valid
station is found (including the empty listing). -/
def find_closest_station (dist : ℚ → ℚ → ℚ → ℚ → ℚ)
    (stations : List StationFeature) (lat lon : ℚ) : Option ClosestStation :=
  closest_loop dist lat lon stations none

/-- A row of the location_weather_config table as get_or_update_weather_config
reads and mutates it. -/
structure LocationWeatherConfig where
  id : Nat
  last_lat : Option ℚ
  last_lon : Option ℚ
  wfo : Option String
  grid_x : Option Int
  grid_y : Option Int
  forecast_url : Option String
  station_id : Option String
  conditions_url : Option String
deriving DecidableEq

/-- The needs_update test of get_or_update_weather_config: true when either
stored coordinate is missing, or when the stored coordinate differs from
the requested one by more than 0.01 degrees in absolute value. -/
def needs_update (config : LocationWeatherConfig) (lat lon : ℚ) : Bool :=
  match config.last_lat, config.last_lon with
  | some la, some lo => decide (1/100 < |la - lat|) || decide (1/100 < |lo - lon|)
  | _, _ => true

/-- What one call to get_or_update_weather_config produced: the returned
value, the stored configuration row afterwards, and how many point
lookups and nearest-station searches the call performed. -/
structure WeatherConfigResult where
  result : Option LocationWeatherConfig
  stored : LocationWeatherConfig
  point_lookups : Nat
  station_searches : Nat
deriving DecidableEq

/-- get_or_update_weather_config (nws_api.py).  The two network calls are
abstracted as their outcomes: point_result is what get_nws_point_data
returned (none for the falsy empty dictionary of a failed request) and
station_result what find_closest_station returned for the listing URL.
When no update is needed the cached row is returned with no network call;
when the point lookup fails the call returns none leaving the row
untouched; otherwise the row is updated from the point data, the nearest
station (when the listing URL is present and a station was found), and
the requested coordinates, then committed. -/
def get_or_update_weather_config (config : LocationWeatherConfig) (lat lon : ℚ)
    (point_result : Option PointData) (station_result : Option ClosestStation) :
    WeatherConfigResult :=
  if needs_update config lat lon then
    match point_result with
    | none =>
        { result := none, stored := config
          point_lookups := 1, station_searches := 0 }
    | some pd =>
      let c1 := { config with
        wfo := pd.wfo, grid_x := pd.grid_x, grid_y := pd.grid_y
        forecast_url := pd.forecast_url }
      let c2 :=
        match pd.observation_stations_url, station_result with
        | some _, some sd =>
            { c1 with station_id := some sd.station_id
                      conditions_url := some sd.conditions_url }
        | _, _ => c1
      let c3 := { c2 with last_lat := some lat, last_lon := some lon }
      { result := some c3, stored := c3, point_lookups := 1
        station_searches := if pd.observation_stations_url.isSome then 1 else 0 }
  else
    { result := some config, stored := config
      point_lookups := 0, station_searches := 0 }

/-- One processed forecast period as get_forecast returns it (periods
without both timestamps were already skipped there, so the times are
present; they stay opaque strings here). -/
structure ForecastPeriodData where
  period_number : Option Int
  name : Option String
  start_time : String
  end_time : String
  is_daytime : Bool
  temperature : Option Int
  wind_speed : Option String
  wind_direction : Option String
  probability_of_precip : Option Int
  short_forecast : Option String
  detailed_forecast : Option String
  icon : Option String
deriving DecidableEq

/-- A row of the forecast table. -/
structure ForecastRow where
  location_id : Nat
  period : ForecastPeriodData
deriving DecidableEq

/-- update_forecast (nws_api.py).  forecast_data is what get_forecast
returned (the empty list for a failed fetch or an empty period set), and
commit_ok models whether the final commit of the shared transaction went
through: the bulk delete of the location's rows and the inserts of the
fresh periods live in one session transaction, so a failure rolls both
back and the prior table survives unchanged. -/
def update_forecast (db : List ForecastRow) (config : LocationWeatherConfig)
    (forecast_data : List ForecastPeriodData) (commit_ok : Bool) :
    List ForecastRow × Bool :=
  if config.forecast_url = none then (db, false)
  else if forecast_data.isEmpty then (db, false)
  else if commit_ok then
    ((db.filter fun r => r.location_id ≠ config.id) ++
      forecast_data.map (fun p => { location_id := config.id, period := p }), true)
  else (db, false)

/-! ## Current conditions: unit conversions (nws_api.py) -/

/-- Celsius to Fahrenheit, None-propagating, as the module constant. -/
def CELSIUS_TO_FAHRENHEIT (c : Option ℚ) : Option ℚ :=
  c.map fun c => c * 9 / 5 + 32

/-- Kilometres per hour to miles per hour, None-propagating. -/
def KMH_TO_MPH (kmh : Option ℚ) : Option ℚ :=
  kmh.map fun kmh => kmh * (621371 / 1000000)

/-- Pascal to hectopascal, None-propagating. -/
def PASCAL_TO_HPA (pa : Option ℚ) : Option ℚ :=
  pa.map fun pa => pa / 100

/-- Metres to miles, None-propagating. -/
def METERS_TO_MILES (m : Option ℚ) : Option ℚ :=
  m.map fun m => m * (621371 / 1000000000)

/-- Millimetres to inches, None-propagating. -/
def MM_TO_INCHES (mm : Option ℚ) : Option ℚ :=
  mm.map fun mm => mm * (393701 / 10000000)

/-- The observation properties get_current_conditions reads from the
station's latest-observation payload (each measurement value may be null). -/
structure ObservationProps where
  timestamp : String
  temperature : Option ℚ
  dewpoint : Option ℚ
  windSpeed : Option ℚ
  windDirection : Option ℚ
  windGust : Option ℚ
  barometricPressure : Option ℚ
  visibility : Option ℚ
  relativeHumidity : Option ℚ
  precipitationLastHour : Option ℚ
  precipitationLast3Hours : Option ℚ
  precipitationLast6Hours : Option ℚ
  textDescription : Option String
  icon : Option String
  windChill : Option ℚ
  heatIndex : Option ℚ
deriving DecidableEq

/-- The imperial-unit dictionary get_current_conditions compiles, the
fields CurrentConditions is then materialized from. -/
structure ConditionsData where
  timestamp : String
  temperature : Option ℚ
  dew_point : Option ℚ
  feels_like : Option ℚ
  humidity : Option ℚ
  wind_speed : Option ℚ
  wind_direction : Option ℚ
  wind_gust : Option ℚ
  pressure : Option ℚ
  visibility : Option ℚ
  description : Option String
  precipitation_last_hour : Option ℚ
  precipitation_last_3_hours : Option ℚ
  precipitation_last_6_hours : Option ℚ
  icon : Option String
deriving DecidableEq

/-- The conversion core of get_current_conditions (nws_api.py), from the
extracted observation properties to the compiled dictionary: each
measurement is converted through the module's conversion constants, and
the feels-like temperature takes the converted wind chill when present,
else the converted heat index, else the converted raw temperature. -/
def get_current_conditions (props : ObservationProps) : ConditionsData :=
  let temp_f := CELSIUS_TO_FAHRENHEIT props.temperature
  let windchill_f := CELSIUS_TO_FAHRENHEIT props.windChill
  let heatindex_f := CELSIUS_TO_FAHRENHEIT props.heatIndex
  let feels_like :=
    match windchill_f with
    | some w => some w
    | none =>
      match heatindex_f with
      | some h => some h
      | none => temp_f
  { timestamp := props.timestamp
    temperature := temp_f
    dew_point := CELSIUS_TO_FAHRENHEIT props.dewpoint
    feels_like := feels_like
    humidity := props.relativeHumidity
    wind_speed := KMH_TO_MPH props.windSpeed
    wind_direction := props.windDirection
    wind_gust := KMH_TO_MPH props.windGust
    pressure := PASCAL_TO_HPA props.barometricPressure
    visibility := METERS_TO_MILES props.visibility
    description := props.textDescription
    precipitation_last_hour := MM_TO_INCHES props.precipitationLastHour
    precipitation_last_3_hours := MM_TO_INCHES props.precipitationLast3Hours
    precipitation_last_6_hours := MM_TO_INCHES props.precipitationLast6Hours
    icon := props.icon }

/-! ## Helper lemmas: the detection sync loop -/

/-- The loop's strict-comparison update is the lexicographic max. -/
lemma string_if_lt_max (a b : String) : (if a < b then b else a) = max a b := by
  by_cases h : a < b
  · rw [if_pos h, max_eq_right (le_of_lt h)]
  · rw [if_neg h, max_eq_left (le_of_not_lt h)]

/-- The seed of a fold by max never exceeds the fold's result. -/
lemma le_foldl_max {α : Type} [LinearOrder α] (l : List α) (a : α) :
    a ≤ l.foldl max a := by
  induction l generalizing a with
  | nil => exact le_refl a
  | cons b l ih => exact le_trans (le_max_left a b) (ih (max a b))

/-- The loop's newest-detection tracker is the fold by lexicographic max of
the truthy latest_detection values of the entries it does not skip. -/
lemma process_newest (fetch : String → SpeciesFetch) (l : List SpeciesStat) :
    ∀ acc : SyncLoop, (process_species_stats fetch l acc).newest_detection_date =
      (validLatests l).foldl max acc.newest_detection_date := by
  induction l with
  | nil => intro acc; simp [process_species_stats, validLatests]
  | cons s rest ih =>
    intro acc
    rw [process_species_stats, ih]
    cases hid : truthyStr s.species_id with
    | none => simp [process_species_stat, hid, validLatests, List.filterMap_cons]
    | some sid =>
      cases hlat : truthyStr s.latest_detection with
      | none => simp [process_species_stat, hid, hlat, validLatests, List.filterMap_cons]
      | some l0 =>
        simp only [process_species_stat, hid, hlat, validLatests, List.filterMap_cons,
          List.foldl_cons]
        rw [string_if_lt_max]

/-- The loop adds to detections_processed exactly the counts of the entries
whose species id is truthy. -/
lemma process_detections (fetch : String → SpeciesFetch) (l : List SpeciesStat) :
    ∀ acc : SyncLoop, (process_species_stats fetch l acc).detections_processed =
      acc.detections_processed + validCountSum l := by
  induction l with
  | nil => intro acc; simp [process_species_stats, validCountSum]
  | cons s rest ih =>
    intro acc
    rw [process_species_stats, ih]
    cases hid : truthyStr s.species_id with
    | none => simp [process_species_stat, hid, validCountSum, List.map_cons]
    | some sid =>
      simp only [process_species_stat, hid, validCountSum, List.map_cons, List.sum_cons]
      omega

/-- Each loop iteration grows the bird table by zero rows or one row, and
raises new_species_added by one exactly when it inserts a row. -/
lemma process_one_added (fetch : String → SpeciesFetch) (acc : SyncLoop) (s : SpeciesStat) :
    (process_species_stat fetch acc s).new_species_added + acc.birds.length =
      acc.new_species_added + (process_species_stat fetch acc s).birds.length := by
  cases hid : truthyStr s.species_id with
  | none => simp [process_species_stat, hid]
  | some sid =>
    by_cases hmem : acc.birds.any fun b => b.species_id == sid
    · simp [process_species_stat, hid, hmem]
    · cases hf : fetch sid with
      | raised => simp [process_species_stat, hid, hmem, add_bird_species, hf]
      | empty => simp [process_species_stat, hid, hmem, add_bird_species, hf]
      | ok info =>
        simp [process_species_stat, hid, hmem, add_bird_species, hf]
        omega

/-- Across the whole loop, new_species_added counts exactly the rows the
loop inserted into the bird table. -/
lemma process_added (fetch : String → SpeciesFetch) (l : List SpeciesStat) :
    ∀ acc : SyncLoop, (process_species_stats fetch l acc).new_species_added + acc.birds.length =
      acc.new_species_added + (process_species_stats fetch l acc).birds.length := by
  induction l with
  | nil => intro acc; simp [process_species_stats]
  | cons s rest ih =>
    intro acc
    rw [process_species_stats]
    have h1 := process_one_added fetch acc s
    have h2 := ih (process_species_stat fetch acc s)
    omega

/-- The loop only appends rows: the initial table is an initial segment of
the final one. -/
lemma process_birds_grow (fetch : String → SpeciesFetch) (l : List SpeciesStat) :
    ∀ acc : SyncLoop, ∃ ext, (process_species_stats fetch l acc).birds = acc.birds ++ ext := by
  induction l with
  | nil => intro acc; exact ⟨[], by simp [process_species_stats]⟩
  | cons s rest ih =>
    intro acc
    rw [process_species_stats]
    obtain ⟨ext, hext⟩ := ih (process_species_stat fetch acc s)
    cases hid : truthyStr s.species_id with
    | none =>
      refine ⟨ext, ?_⟩
      rw [hext]
      simp [process_species_stat, hid]
    | some sid =>
      by_cases hmem : acc.birds.any fun b => b.species_id == sid
      · refine ⟨ext, ?_⟩
        rw [hext]
        simp [process_species_stat, hid, hmem]
      · cases hf : fetch sid with
        | raised =>
          refine ⟨ext, ?_⟩
          rw [hext]
          simp [process_species_stat, hid, hmem, add_bird_species, hf]
        | empty =>
          refine ⟨ext, ?_⟩
          rw [hext]
          simp [process_species_stat, hid, hmem, add_bird_species, hf]
        | ok info =>
          refine ⟨{ Bird.from_api_data sid info with common := false } :: ext, ?_⟩
          rw [hext]
          simp [process_species_stat, hid, hmem, add_bird_species, hf]

/-- A species whose every fetch outcome is a failure is never inserted: if
no row carries its id before the loop, none does after it. -/
lemma process_excludes_failed (fetch : String → SpeciesFetch) (X : String)
    (hX : ∀ info, fetch X ≠ SpeciesFetch.ok info) (l : List SpeciesStat) :
    ∀ acc : SyncLoop, (∀ b ∈ acc.birds, b.species_id ≠ X) →
      ∀ b ∈ (process_species_stats fetch l acc).birds, b.species_id ≠ X := by
  induction l with
  | nil => intro acc hacc; simpa [process_species_stats] using hacc
  | cons s rest ih =>
    intro acc hacc
    rw [process_species_stats]
    refine ih (process_species_stat fetch acc s) ?_
    intro b hb
    cases hid : truthyStr s.species_id with
    | none =>
      rw [process_species_stat, hid] at hb
      exact hacc b hb
    | some sid =>
      by_cases hmem : acc.birds.any fun b => b.species_id == sid
      · simp only [process_species_stat, hid, hmem, if_pos] at hb
        exact hacc b hb
      · cases hf : fetch sid with
        | raised =>
          simp only [process_species_stat, hid, hmem, add_bird_species, hf, if_neg,
            Bool.not_eq_true] at hb
          exact hacc b hb
        | empty =>
          simp only [process_species_stat, hid, hmem, add_bird_species, hf, if_neg,
            Bool.not_eq_true] at hb
          exact hacc b hb
        | ok info =>
          simp only [process_species_stat, hid, hmem, add_bird_species, hf, if_neg,
            Bool.not_eq_true, List.mem_append, List.mem_singleton] at hb
          rcases hb with hb | hb
          · exact hacc b hb
          · intro hbid
            have hsid : b.species_id = sid := by
              rw [hb]
              rfl
            exact hX info (by rw [← hbid, hsid]; exact hf)

/-- What one successful update_database run computes, in closed form: the
bird table is the loop's table, the stored watermark is the lexicographic
max of the prior watermark and the truthy observed timestamps, and the
returned statistics carry the loop's counters (the statistics watermark
field is set exactly when the max strictly exceeds the prior watermark). -/
lemma update_database_eq (fetch : String → SpeciesFetch) (st : SyncState)
    (stats : List SpeciesStat) (w : String)
    (h1 : st.last_detection_date = some w) (h2 : w ≠ "") :
    update_database fetch st (Except.ok stats) =
      ({ birds := (process_species_stats fetch stats
            { birds := st.birds, newest_detection_date := w
              detections_processed := 0, new_species_added := 0 }).birds
         last_detection_date := some ((validLatests stats).foldl max w) },
       { detections_processed := (process_species_stats fetch stats
            { birds := st.birds, newest_detection_date := w
              detections_processed := 0, new_species_added := 0 }).detections_processed
         new_species_added := (process_species_stats fetch stats
            { birds := st.birds, newest_detection_date := w
              detections_processed := 0, new_species_added := 0 }).new_species_added
         total_detections := (stats.map fun s => s.count).sum
         last_detection_date := if w < (validLatests stats).foldl max w
           then some ((validLatests stats).foldl max w) else none }) := by
  have hnew := process_newest fetch stats
    { birds := st.birds, newest_detection_date := w
      detections_processed := 0, new_species_added := 0 }
  have hle := le_foldl_max (validLatests stats) w
  unfold update_database
  rw [h1]
  simp only [truthyStr, if_neg h2, hnew]
  by_cases hlt : w < (validLatests stats).foldl max w
  · simp [hlt]
  · have heq : (validLatests stats).foldl max w = w := le_antisymm (le_of_not_lt hlt) hle
    simp [hlt, heq, h1]

/-- Under truthy ids and never-empty timestamps — which is how
get_species_detection_stats builds its entries — the timestamps the loop
compares are exactly the non-null latest_detection values. -/
lemma validLatests_of_valid (stats : List SpeciesStat)
    (hids : ∀ s ∈ stats, truthyStr s.species_id ≠ none)
    (hlat : ∀ s ∈ stats, truthyStr s.latest_detection = s.latest_detection) :
    validLatests stats = stats.filterMap SpeciesStat.latest_detection := by
  induction stats with
  | nil => rfl
  | cons s rest ih =>
    have h1 := hids s (List.mem_cons_self s rest)
    have h2 := hlat s (List.mem_cons_self s rest)
    have hrest := ih (fun t ht => hids t (List.mem_cons_of_mem s ht))
      (fun t ht => hlat t (List.mem_cons_of_mem s ht))
    cases hid : truthyStr s.species_id with
    | none => exact absurd hid h1
    | some sid =>
      cases hl : s.latest_detection with
      | none =>
        rw [hl] at h2
        simp only [validLatests, List.filterMap_cons, hid, h2, hl] at hrest ⊢
        exact hrest
      | some t =>
        rw [hl] at h2
        simp only [validLatests, List.filterMap_cons, hid, h2, hl] at hrest ⊢
        rw [hrest]

/-! ## Claim theorems: detection sync -/

/-- C1.  Watermark monotonicity across a successful update_database run:
the stored last_detection_date afterwards is exactly the lexicographic max
of the prior watermark and the observed latest_detection timestamps — so
it equals the prior watermark unless some observed timestamp strictly
exceeds it, in which case it is that maximum, and it never decreases. -/
theorem C1_watermark_monotone (fetch : String → SpeciesFetch) (st : SyncState)
    (stats : List SpeciesStat) (w : String)
    (h1 : st.last_detection_date = some w) (h2 : w ≠ "") :
    (update_database fetch st (Except.ok stats)).1.last_detection_date =
      some ((validLatests stats).foldl max w) ∧
    w ≤ (validLatests stats).foldl max w := by
  rw [update_database_eq fetch st stats w h1 h2]
  exact ⟨rfl, le_foldl_max _ _⟩

/-- Witness for C1 at a concrete run: prior watermark 2024-01-01, one
species with a later detection. -/
theorem C1_watermark_monotone_witness :
    (update_database (fun _ => SpeciesFetch.empty)
        { birds := [], last_detection_date := some "2024-01-01T00:00:00Z" }
        (Except.ok [{ species_id := some "buteo-jamaicensis", count := 2,
                      latest_detection := some "2024-01-02T03:04:05Z" }])).1.last_detection_date =
      some ((validLatests [{ species_id := some "buteo-jamaicensis", count := 2,
                             latest_detection := some "2024-01-02T03:04:05Z" }]).foldl max
        "2024-01-01T00:00:00Z") ∧
    "2024-01-01T00:00:00Z" ≤
      (validLatests [{ species_id := some "buteo-jamaicensis", count := 2,
                       latest_detection := some "2024-01-02T03:04:05Z" }]).foldl max
        "2024-01-01T00:00:00Z" :=
  C1_watermark_monotone _ _ _ _ rfl (by decide)

/-- C10.  The watermark ordering is Python string comparison: after a
successful run whose entries carry truthy species ids and non-empty
timestamps (as get_species_detection_stats builds them), the stored
watermark is the lexicographically greatest string among the prior
watermark and every non-null latest_detection value — max here being the
max of the lexicographic LinearOrder on strings, which agrees with
chronological order only for timestamps in one uniform format. -/
theorem C10_watermark_is_lexicographic_max (fetch : String → SpeciesFetch)
    (st : SyncState) (stats : List SpeciesStat) (w : String)
    (h1 : st.last_detection_date = some w) (h2 : w ≠ "")
    (hids : ∀ s ∈ stats, truthyStr s.species_id ≠ none)
    (hlat : ∀ s ∈ stats, truthyStr s.latest_detection = s.latest_detection) :
    (update_database fetch st (Except.ok stats)).1.last_detection_date =
      some ((stats.filterMap SpeciesStat.latest_detection).foldl max w) := by
  rw [update_database_eq fetch st stats w h1 h2, ← validLatests_of_valid stats hids hlat]

/-- Witness for C10: two entries whose suffix styles differ; the stored
watermark is the lexicographically greatest of the three strings. -/
theorem C10_watermark_is_lexicographic_max_witness :
    (update_database (fun _ => SpeciesFetch.empty)
        { birds := [], last_detection_date := some "2024-01-01T00:00:01Z" }
        (Except.ok
          [{ species_id := some "cardinalis-cardinalis", count := 1,
             latest_detection := some "2024-01-01T00:00:10+00:00" },
           { species_id := some "cyanocitta-cristata", count := 1,
             latest_detection := none }])).1.last_detection_date =
      some (([{ species_id := some "cardinalis-cardinalis", count := 1,
                latest_detection := some "2024-01-01T00:00:10+00:00" },
              { species_id := some "cyanocitta-cristata", count := 1,
                latest_detection := none }].filterMap SpeciesStat.latest_detection).foldl max
        "2024-01-01T00:00:01Z") :=
  C10_watermark_is_lexicographic_max _ _ _ _ rfl (by decide) (by decide) (by decide)

/-- C7.  A run over an empty detection-statistics set (the remote reported
zero new detections) leaves the stored state — watermark included —
unchanged and returns zero processed detections and zero new species. -/
theorem C7_zero_detection_run (fetch : String → SpeciesFetch) (st : SyncState) (w : String)
    (h1 : st.last_detection_date = some w) (h2 : w ≠ "") :
    (update_database fetch st (Except.ok [])).1 = st ∧
    (update_database fetch st (Except.ok [])).2.detections_processed = 0 ∧
    (update_database fetch st (Except.ok [])).2.new_species_added = 0 := by
  rw [update_database_eq fetch st [] w h1 h2]
  refine ⟨?_, rfl, rfl⟩
  cases st with
  | mk birds last =>
    simp only [SyncState.last_detection_date] at h1
    simp [process_species_stats, validLatests, h1]

/-- Witness for C7 at a concrete state. -/
theorem C7_zero_detection_run_witness :
    (update_database (fun _ => SpeciesFetch.empty)
        { birds := [], last_detection_date := some "2024-01-01T00:00:00Z" }
        (Except.ok [])).1 =
      { birds := [], last_detection_date := some "2024-01-01T00:00:00Z" } ∧
    (update_database (fun _ => SpeciesFetch.empty)
        { birds := [], last_detection_date := some "2024-01-01T00:00:00Z" }
        (Except.ok [])).2.detections_processed = 0 ∧
    (update_database (fun _ => SpeciesFetch.empty)
        { birds := [], last_detection_date := some "2024-01-01T00:00:00Z" }
        (Except.ok [])).2.new_species_added = 0 :=
  C7_zero_detection_run _ _ _ rfl (by decide)

/-- C2.  Partial-failure isolation per species: when every fetch outcome
for species X is a failure (no usable record) and X has no local row, a
run still counts every entry's detections — X's included — in
detections_processed; the pre-existing rows survive; X still has no row
afterwards (so the next run will retry its enrichment); and
new_species_added counts exactly the rows actually inserted, which
excludes X. -/
theorem C2_enrichment_failure_isolation (fetch : String → SpeciesFetch)
    (st : SyncState) (stats : List SpeciesStat) (w X : String)
    (h1 : st.last_detection_date = some w) (h2 : w ≠ "")
    (hX : ∀ info, fetch X ≠ SpeciesFetch.ok info)
    (hXnotin : ∀ b ∈ st.birds, b.species_id ≠ X) :
    (∀ b ∈ (update_database fetch st (Except.ok stats)).1.birds, b.species_id ≠ X) ∧
    (∀ b ∈ st.birds, b ∈ (update_database fetch st (Except.ok stats)).1.birds) ∧
    (update_database fetch st (Except.ok stats)).2.detections_processed = validCountSum stats ∧
    (update_database fetch st (Except.ok stats)).2.new_species_added + st.birds.length =
      (update_database fetch st (Except.ok stats)).1.birds.length := by
  rw [update_database_eq fetch st stats w h1 h2]
  refine ⟨?_, ?_, ?_, ?_⟩
  · exact process_excludes_failed fetch X hX stats
      { birds := st.birds, newest_detection_date := w
        detections_processed := 0, new_species_added := 0 } hXnotin
  · intro b hb
    obtain ⟨ext, hext⟩ := process_birds_grow fetch stats
      { birds := st.birds, newest_detection_date := w
        detections_processed := 0, new_species_added := 0 }
    show b ∈ (process_species_stats fetch stats
      { birds := st.birds, newest_detection_date := w
        detections_processed := 0, new_species_added := 0 }).birds
    rw [hext]
    exact List.mem_append_left ext hb
  · have h := process_detections fetch stats
      { birds := st.birds, newest_detection_date := w
        detections_processed := 0, new_species_added := 0 }
    simpa using h
  · have h := process_added fetch stats
      { birds := st.birds, newest_detection_date := w
        detections_processed := 0, new_species_added := 0 }
    simpa using h

/-- Witness for C2: species x2 always fails enrichment, x1 succeeds; both
counts land in detections_processed, only x1 becomes a row. -/
theorem C2_enrichment_failure_isolation_witness :
    (∀ b ∈ (update_database
        (fun sid => if sid = "x1" then SpeciesFetch.ok
            { birdweather_url := none, color := none, common_name := some "One"
              ebird_url := none, image_url := none, scientific_name := none
              thumbnail_url := none, wikipedia_summary := none, wikipedia_url := none }
          else SpeciesFetch.raised)
        { birds := [], last_detection_date := some "2024-01-01T00:00:00Z" }
        (Except.ok
          [{ species_id := some "x1", count := 2, latest_detection := none },
           { species_id := some "x2", count := 3, latest_detection := none }])).1.birds,
      b.species_id ≠ "x2") ∧
    (∀ b ∈ ([] : List Bird), b ∈ (update_database
        (fun sid => if sid = "x1" then SpeciesFetch.ok
            { birdweather_url := none, color := none, common_name := some "One"
              ebird_url := none, image_url := none, scientific_name := none
              thumbnail_url := none, wikipedia_summary := none, wikipedia_url := none }
          else SpeciesFetch.raised)
        { birds := [], last_detection_date := some "2024-01-01T00:00:00Z" }
        (Except.ok
          [{ species_id := some "x1", count := 2, latest_detection := none },
           { species_id := some "x2", count := 3, latest_detection := none }])).1.birds) ∧
    (update_database
        (fun sid => if sid = "x1" then SpeciesFetch.ok
            { birdweather_url := none, color := none, common_name := some "One"
              ebird_url := none, image_url := none, scientific_name := none
              thumbnail_url := none, wikipedia_summary := none, wikipedia_url := none }
          else SpeciesFetch.raised)
        { birds := [], last_detection_date := some "2024-01-01T00:00:00Z" }
        (Except.ok
          [{ species_id := some "x1", count := 2, latest_detection := none },
           { species_id := some "x2", count := 3, latest_detection := none }])).2.detections_processed =
      validCountSum
          [{ species_id := some "x1", count := 2, latest_detection := none },
           { species_id := some "x2", count := 3, latest_detection := none }] ∧
    (update_database
        (fun sid => if sid = "x1" then SpeciesFetch.ok
            { birdweather_url := none, color := none, common_name := some "One"
              ebird_url := none, image_url := none, scientific_name := none
              thumbnail_url := none, wikipedia_summary := none, wikipedia_url := none }
          else SpeciesFetch.raised)
        { birds := [], last_detection_date := some "2024-01-01T00:00:00Z" }
        (Except.ok
          [{ species_id := some "x1", count := 2, latest_detection := none },
           { species_id := some "x2", count := 3, latest_detection := none }])).2.new_species_added +
      ([] : List Bird).length =
      (update_database
        (fun sid => if sid = "x1" then SpeciesFetch.ok
            { birdweather_url := none, color := none, common_name := some "One"
              ebird_url := none, image_url := none, scientific_name := none
              thumbnail_url := none, wikipedia_summary := none, wikipedia_url := none }
          else SpeciesFetch.raised)
        { birds := [], last_detection_date := some "2024-01-01T00:00:00Z" }
        (Except.ok
          [{ species_id := some "x1", count := 2, latest_detection := none },
           { species_id := some "x2", count := 3, latest_detection := none }])).1.birds.length :=
  C2_enrichment_failure_isolation _ _ _ _ "x2" rfl (by decide)
    (by intro info h; revert h; simp) (by intro b hb; cases hb)

/-- C6.  Enrichment creates no partial row: a raised fetch or a falsy
payload makes add_bird_species return none with the table unchanged; a
none result always leaves the table unchanged; and a row is inserted only
on a complete successful fetch, as that fetch's validated record. -/
theorem C6_enrichment_inserts_only_on_success (fetch : String → SpeciesFetch)
    (birds : List Bird) (sid : String) :
    (fetch sid = SpeciesFetch.raised ∨ fetch sid = SpeciesFetch.empty →
        add_bird_species fetch birds sid = (birds, none)) ∧
    ((add_bird_species fetch birds sid).2 = none →
        (add_bird_species fetch birds sid).1 = birds) ∧
    (∀ info, fetch sid = SpeciesFetch.ok info →
        add_bird_species fetch birds sid =
          (birds ++ [{ Bird.from_api_data sid info with common := false }],
           some { Bird.from_api_data sid info with common := false })) := by
  cases h : fetch sid <;> simp [add_bird_species, h]

/-! ## Helper lemmas and claim theorems: weather resolver -/

/-- The re-resolution condition as the specification words it: no prior
resolution exists (a stored coordinate is null), or the requested
coordinate differs from the stored one by more than 0.01 degrees. -/
def reresolution_required (config : LocationWeatherConfig) (lat lon : ℚ) : Prop :=
  config.last_lat = none ∨ config.last_lon = none ∨
  (∃ la, config.last_lat = some la ∧ 1/100 < |lat - la|) ∨
  (∃ lo, config.last_lon = some lo ∧ 1/100 < |lon - lo|)

/-- The code's needs_update flag decides exactly the specification's
re-resolution condition. -/
lemma needs_update_iff (config : LocationWeatherConfig) (lat lon : ℚ) :
    needs_update config lat lon = true ↔ reresolution_required config lat lon := by
  cases hla : config.last_lat with
  | none =>
    simp [needs_update, reresolution_required, hla]
  | some la =>
    cases hlo : config.last_lon with
    | none => simp [needs_update, reresolution_required, hla, hlo]
    | some lo =>
      simp only [needs_update, reresolution_required, hla, hlo, Bool.or_eq_true,
        decide_eq_true_eq, Option.some.injEq, reduceCtorEq, false_or,
        exists_eq_left]
      rw [abs_sub_comm la lat, abs_sub_comm lo lon]
      simp

/-- C4.  The resolver's tolerance logic: the point lookup (and with it the
whole re-resolution) runs exactly when the specification's condition
holds; within tolerance the cached row is returned unchanged with zero
network calls; a re-resolution whose point lookup succeeded stores the
requested coordinates as the new last-resolved ones and returns the
stored row; and such a re-resolution performs exactly one nearest-station
search when the point data carries the stations listing URL. -/
theorem C4_resolver_tolerance (config : LocationWeatherConfig) (lat lon : ℚ)
    (point_result : Option PointData) (station_result : Option ClosestStation) :
    (needs_update config lat lon = true ↔ reresolution_required config lat lon) ∧
    (¬ reresolution_required config lat lon →
      get_or_update_weather_config config lat lon point_result station_result =
        { result := some config, stored := config
          point_lookups := 0, station_searches := 0 }) ∧
    (reresolution_required config lat lon →
      (get_or_update_weather_config config lat lon point_result station_result).point_lookups
        = 1) ∧
    (reresolution_required config lat lon → ∀ pd, point_result = some pd →
      (get_or_update_weather_config config lat lon point_result
          station_result).stored.last_lat = some lat ∧
      (get_or_update_weather_config config lat lon point_result
          station_result).stored.last_lon = some lon ∧
      (get_or_update_weather_config config lat lon point_result station_result).result =
        some (get_or_update_weather_config config lat lon point_result
          station_result).stored) ∧
    (reresolution_required config lat lon → ∀ pd, point_result = some pd →
      pd.observation_stations_url ≠ none →
      (get_or_update_weather_config config lat lon point_result
          station_result).station_searches = 1) := by
  refine ⟨needs_update_iff config lat lon, ?_, ?_, ?_, ?_⟩
  · intro h
    have hb : needs_update config lat lon = false := by
      rw [← Bool.not_eq_true]
      exact fun hc => h ((needs_update_iff config lat lon).mp hc)
    simp [get_or_update_weather_config, hb]
  · intro h
    have hb : needs_update config lat lon = true := (needs_update_iff config lat lon).mpr h
    cases point_result with
    | none => simp [get_or_update_weather_config, hb]
    | some pd =>
      cases hs : pd.observation_stations_url <;> cases station_result <;>
        simp [get_or_update_weather_config, hb, hs]
  · intro h pd hpd
    have hb : needs_update config lat lon = true := (needs_update_iff config lat lon).mpr h
    subst hpd
    cases hs : pd.observation_stations_url <;> cases station_result <;>
      simp [get_or_update_weather_config, hb, hs]
  · intro h pd hpd hurl
    have hb : needs_update config lat lon = true := (needs_update_iff config lat lon).mpr h
    subst hpd
    cases hs : pd.observation_stations_url with
    | none => exact absurd hs hurl
    | some u =>
      cases station_result <;> simp [get_or_update_weather_config, hb, hs]

/-- C8.  When re-resolution is required and the point lookup fails (the
falsy empty payload), the resolver returns none and the stored
configuration row is exactly the prior one, unmutated. -/
theorem C8_point_failure_preserves_config (config : LocationWeatherConfig) (lat lon : ℚ)
    (station_result : Option ClosestStation)
    (h : reresolution_required config lat lon) :
    (get_or_update_weather_config config lat lon none station_result).result = none ∧
    (get_or_update_weather_config config lat lon none station_result).stored = config := by
  have hb : needs_update config lat lon = true := (needs_update_iff config lat lon).mpr h
  simp [get_or_update_weather_config, hb]

/-- Witness for C8: a first-run configuration (no stored coordinates) with
a failing point lookup keeps its row and yields none. -/
theorem C8_point_failure_preserves_config_witness :
    (get_or_update_weather_config
        { id := 1, last_lat := none, last_lon := none, wfo := none, grid_x := none
          grid_y := none, forecast_url := none, station_id := none, conditions_url := none }
        (30 : ℚ) (-97 : ℚ) none none).result = none ∧
    (get_or_update_weather_config
        { id := 1, last_lat := none, last_lon := none, wfo := none, grid_x := none
          grid_y := none, forecast_url := none, station_id := none, conditions_url := none }
        (30 : ℚ) (-97 : ℚ) none none).stored =
      { id := 1, last_lat := none, last_lon := none, wfo := none, grid_x := none
        grid_y := none, forecast_url := none, station_id := none, conditions_url := none } :=
  C8_point_failure_preserves_config _ _ _ _ (Or.inl rfl)

/-- C3.  Forecast refresh is all-or-nothing: a successful run replaces the
location's rows by exactly the freshly fetched period set while other
locations' rows survive untouched; a failed run (failed fetch, empty
period set, missing URL, or a failed commit rolling the transaction back)
leaves the table exactly as it was; and in every case the location's rows
afterwards are either the old set or the new set in full — never a mix of
two refresh generations. -/
theorem C3_forecast_all_or_nothing (db : List ForecastRow)
    (config : LocationWeatherConfig) (forecast_data : List ForecastPeriodData)
    (commit_ok : Bool) :
    ((update_forecast db config forecast_data commit_ok).2 = true →
      (update_forecast db config forecast_data commit_ok).1 =
        (db.filter fun r => r.location_id ≠ config.id) ++
          forecast_data.map (fun p => { location_id := config.id, period := p })) ∧
    ((update_forecast db config forecast_data commit_ok).2 = false →
      (update_forecast db config forecast_data commit_ok).1 = db) ∧
    ((update_forecast db config forecast_data commit_ok).1.filter
        (fun r => r.location_id = config.id) =
        db.filter (fun r => r.location_id = config.id) ∨
      (update_forecast db config forecast_data commit_ok).1.filter
        (fun r => r.location_id = config.id) =
        forecast_data.map (fun p => { location_id := config.id, period := p })) := by
  by_cases hurl : config.forecast_url = none
  · simp [update_forecast, hurl]
  · by_cases hdata : forecast_data.isEmpty
    · simp [update_forecast, hurl, hdata]
    · cases commit_ok with
      | false => simp [update_forecast, hurl, hdata]
      | true =>
        refine ⟨fun _ => by simp [update_forecast, hurl, hdata], ?_, ?_⟩
        · intro hfalse
          exact absurd hfalse (by simp [update_forecast, hurl, hdata])
        · right
          simp only [update_forecast, hurl, hdata, if_neg, if_pos, Bool.false_eq_true,
            ite_false, ite_true]
          rw [List.filter_append]
          have h1 : (db.filter fun r => r.location_id ≠ config.id).filter
              (fun r => r.location_id = config.id) = [] := by
            rw [List.filter_filter]
            refine List.filter_eq_nil_iff.mpr ?_
            intro r _
            simp
          have h2 : ((forecast_data.map fun p =>
              ({ location_id := config.id, period := p } : ForecastRow)).filter
                (fun r => r.location_id = config.id)) =
              forecast_data.map (fun p => ({ location_id := config.id, period := p } : ForecastRow)) := by
            refine List.filter_eq_self.mpr ?_
            intro r hr
            simp only [List.mem_map] at hr
            obtain ⟨p, _, hp⟩ := hr
            rw [← hp]
            simp
          rw [h1, h2, List.nil_append]

/-- If find_closest_station's loop ends with no station, it started with
none and every entry it saw was skipped by the candidate checks. -/
lemma closest_loop_none (dist : ℚ → ℚ → ℚ → ℚ → ℚ) (lat lon : ℚ) :
    ∀ (l : List StationFeature) (best : Option ClosestStation),
      closest_loop dist lat lon l best = none →
      best = none ∧ ∀ s ∈ l, station_candidate s = none := by
  intro l
  induction l with
  | nil =>
    intro best h
    exact ⟨h, by intro s hs; cases hs⟩
  | cons s rest ih =>
    intro best h
    cases hc : station_candidate s with
    | none =>
      rw [closest_loop, hc] at h
      obtain ⟨hbest, hrest⟩ := ih best h
      refine ⟨hbest, ?_⟩
      intro t ht
      rcases List.mem_cons.mp ht with rfl | ht
      · exact hc
      · exact hrest t ht
    | some cand =>
      obtain ⟨slat, slon, sid⟩ := cand
      cases best with
      | none =>
        simp only [closest_loop, hc] at h
        exact absurd (ih _ h).1 (by simp)
      | some b =>
        simp only [closest_loop, hc] at h
        by_cases hd : dist lat lon slat slon < b.distance
        · rw [if_pos hd] at h
          exact absurd (ih _ h).1 (by simp)
        · rw [if_neg hd] at h
          exact absurd (ih _ h).1 (by simp)

/-- The invariant of find_closest_station's loop: a returned station either
was the incoming best or arises from a candidate in the list with its
distance attached; its distance is a lower bound of the incoming best's
distance and of every candidate's distance in the list. -/
lemma closest_loop_min (dist : ℚ → ℚ → ℚ → ℚ → ℚ) (lat lon : ℚ) :
    ∀ (l : List StationFeature) (best : Option ClosestStation) (r : ClosestStation),
      closest_loop dist lat lon l best = some r →
      (best = some r ∨ ∃ s ∈ l, ∃ slat slon,
          station_candidate s = some (slat, slon, r.station_id) ∧
          r.distance = dist lat lon slat slon ∧
          r.conditions_url = stationConditionsUrl r.station_id) ∧
      (∀ b, best = some b → r.distance ≤ b.distance) ∧
      (∀ s ∈ l, ∀ slat slon sid, station_candidate s = some (slat, slon, sid) →
          r.distance ≤ dist lat lon slat slon) := by
  intro l
  induction l with
  | nil =>
    intro best r h
    rw [closest_loop] at h
    refine ⟨Or.inl h, ?_, ?_⟩
    · intro b hb
      rw [h] at hb
      cases hb
      exact le_refl r.distance
    · intro s hs
      cases hs
  | cons s rest ih =>
    intro best r h
    cases hc : station_candidate s with
    | none =>
      rw [closest_loop, hc] at h
      obtain ⟨hprov, hbest, hrest⟩ := ih best r h
      refine ⟨?_, hbest, ?_⟩
      · rcases hprov with hp | ⟨t, ht, hcand⟩
        · exact Or.inl hp
        · exact Or.inr ⟨t, List.mem_cons_of_mem s ht, hcand⟩
      · intro t ht slat slon sid hcand
        rcases List.mem_cons.mp ht with rfl | ht
        · rw [hc] at hcand
          cases hcand
        · exact hrest t ht slat slon sid hcand
    | some cand =>
      obtain ⟨slat, slon, sid⟩ := cand
      cases best with
      | none =>
        simp only [closest_loop, hc] at h
        obtain ⟨hprov, hbest, hrest⟩ := ih _ r h
        have hb2 : r.distance ≤ dist lat lon slat slon := by
          rcases hprov with hp | _
          · cases hp
            exact le_refl _
          · exact hbest _ rfl |>.trans (le_refl _)
        refine ⟨?_, ?_, ?_⟩
        · rcases hprov with hp | ⟨t, ht, hcand⟩
          · cases hp
            exact Or.inr ⟨s, List.mem_cons_self s rest, slat, slon, hc, rfl, rfl⟩
          · exact Or.inr ⟨t, List.mem_cons_of_mem s ht, hcand⟩
        · intro b hb
          cases hb
        · intro t ht slat2 slon2 sid2 hcand
          rcases List.mem_cons.mp ht with rfl | ht
          · rw [hc] at hcand
            cases hcand
            exact hb2
          · exact hrest t ht slat2 slon2 sid2 hcand
      | some b =>
        simp only [closest_loop, hc] at h
        by_cases hd : dist lat lon slat slon < b.distance
        · rw [if_pos hd] at h
          obtain ⟨hprov, hbest, hrest⟩ := ih _ r h
          have hrd : r.distance ≤ dist lat lon slat slon := by
            rcases hprov with hp | _
            · cases hp
              exact le_refl _
            · exact hbest _ rfl
          refine ⟨?_, ?_, ?_⟩
          · rcases hprov with hp | ⟨t, ht, hcand⟩
            · cases hp
              exact Or.inr ⟨s, List.mem_cons_self s rest, slat, slon, hc, rfl, rfl⟩
            · exact Or.inr ⟨t, List.mem_cons_of_mem s ht, hcand⟩
          · intro b2 hb2
            cases hb2
            exact hrd.trans (le_of_lt hd)
          · intro t ht slat2 slon2 sid2 hcand
            rcases List.mem_cons.mp ht with rfl | ht
            · rw [hc] at hcand
              cases hcand
              exact hrd
            · exact hrest t ht slat2 slon2 sid2 hcand
        · rw [if_neg hd] at h
          obtain ⟨hprov, hbest, hrest⟩ := ih _ r h
          have hrb : r.distance ≤ b.distance := hbest b rfl
          refine ⟨?_, ?_, ?_⟩
          · rcases hprov with hp | ⟨t, ht, hcand⟩
            · exact Or.inl hp
            · exact Or.inr ⟨t, List.mem_cons_of_mem s ht, hcand⟩
          · intro b2 hb2
            cases hb2
            exact hrb
          · intro t ht slat2 slon2 sid2 hcand
            rcases List.mem_cons.mp ht with rfl | ht
            · rw [hc] at hcand
              cases hcand
              exact hrb.trans (le_of_not_lt hd)
            · exact hrest t ht slat2 slon2 sid2 hcand

/-- The validity condition as the specification words it: the entry has
coordinates (two values) and a station identifier. -/
def listed_with_coordinates_and_id (s : StationFeature) : Prop :=
  2 ≤ s.coordinates.length ∧ s.stationIdentifier ≠ none

/-- C5 counterexample.  A single-station listing whose entry has full
coordinates and an identifier, yet whose latitude is 0: the claim says the
minimal-distance candidate (here the only one) is returned, but the code's
Python truthiness test drops the zero coordinate and the empty dictionary
comes back instead. -/
theorem C5_counterexample_zero_latitude :
    listed_with_coordinates_and_id
      { coordinates := [10, 0], stationIdentifier := some "KNUL" } ∧
    find_closest_station (fun _ _ _ _ => 5)
      [{ coordinates := [10, 0], stationIdentifier := some "KNUL" }] 35 (-97) = none := by
  constructor
  · exact ⟨by decide, by simp⟩
  · rfl

/-- C5 as amended.  For every distance function (haversine_distance with
Earth radius 3,958.8 miles in the code, kept abstract here), a returned
station arises from a surviving candidate of the listing at its computed
distance, and its distance is minimal among all surviving candidates;
when every entry is skipped the empty result comes back.  Surviving means
the entry has two coordinates, a present non-empty identifier, and
nonzero latitude and longitude (Python truthiness).  The three-candidate
scenario at distances 12.3, 4.1 and 30.0 miles selects the 4.1-mile
station. -/
theorem C5_nearest_station_selected (dist : ℚ → ℚ → ℚ → ℚ → ℚ)
    (stations : List StationFeature) (lat lon : ℚ) :
    (∀ r, find_closest_station dist stations lat lon = some r →
      (∃ s ∈ stations, ∃ slat slon,
          station_candidate s = some (slat, slon, r.station_id) ∧
          r.distance = dist lat lon slat slon ∧
          r.conditions_url = stationConditionsUrl r.station_id) ∧
      ∀ s ∈ stations, ∀ slat slon sid,
          station_candidate s = some (slat, slon, sid) →
          r.distance ≤ dist lat lon slat slon) ∧
    ((∀ s ∈ stations, station_candidate s = none) →
      find_closest_station dist stations lat lon = none) ∧
    find_closest_station
        (fun _ _ slat _ => if slat = 30 then Rat.divInt 123 10
          else if slat = 31 then Rat.divInt 41 10 else Rat.divInt 300 10)
        [{ coordinates := [-90, 30], stationIdentifier := some "S1" },
         { coordinates := [-91, 31], stationIdentifier := some "S2" },
         { coordinates := [-92, 32], stationIdentifier := some "S3" }] 35 (-97) =
      some { station_id := "S2", distance := Rat.divInt 41 10
             conditions_url := stationConditionsUrl "S2" } := by
  refine ⟨?_, ?_, ?_⟩
  · intro r h
    obtain ⟨hprov, _, hmin⟩ := closest_loop_min dist lat lon stations none r h
    refine ⟨?_, ?_⟩
    · rcases hprov with hp | hp
      · cases hp
      · exact hp
    · intro s hs slat slon sid hcand
      exact hmin s hs slat slon sid hcand
  · intro hall
    cases hres : find_closest_station dist stations lat lon with
    | none => rfl
    | some r =>
      obtain ⟨hprov, _, _⟩ := closest_loop_min dist lat lon stations none r hres
      rcases hprov with hp | ⟨s, hs, slat, slon, hcand, _⟩
      · cases hp
      · rw [hall s hs] at hcand
        cases hcand
  · decide

/-- C9.  The conversions materializing CurrentConditions are exactly the
claimed formulas — Fahrenheit = Celsius×9/5+32, mph = km/h×0.621371,
hPa = Pa/100, miles = m×0.000621371, inches = mm×0.0393701 — each wired to
its field of the compiled conditions; 0 °C gives 32 °F, 100000 Pa gives
1000 hPa, 25.4 mm gives 1 inch to within 1/100000; and the feels-like
temperature is the first non-null of converted wind chill, converted heat
index and converted raw temperature, in that order. -/
theorem C9_unit_conversions (props : ObservationProps) :
    (∀ c : ℚ, CELSIUS_TO_FAHRENHEIT (some c) = some (c * 9 / 5 + 32)) ∧
    (∀ v : ℚ, KMH_TO_MPH (some v) = some (v * (621371 / 1000000))) ∧
    (∀ v : ℚ, PASCAL_TO_HPA (some v) = some (v / 100)) ∧
    (∀ v : ℚ, METERS_TO_MILES (some v) = some (v * (621371 / 1000000000))) ∧
    (∀ v : ℚ, MM_TO_INCHES (some v) = some (v * (393701 / 10000000))) ∧
    (get_current_conditions props).temperature = CELSIUS_TO_FAHRENHEIT props.temperature ∧
    (get_current_conditions props).dew_point = CELSIUS_TO_FAHRENHEIT props.dewpoint ∧
    (get_current_conditions props).wind_speed = KMH_TO_MPH props.windSpeed ∧
    (get_current_conditions props).wind_gust = KMH_TO_MPH props.windGust ∧
    (get_current_conditions props).pressure = PASCAL_TO_HPA props.barometricPressure ∧
    (get_current_conditions props).visibility = METERS_TO_MILES props.visibility ∧
    (get_current_conditions props).precipitation_last_hour =
      MM_TO_INCHES props.precipitationLastHour ∧
    CELSIUS_TO_FAHRENHEIT (some 0) = some 32 ∧
    KMH_TO_MPH (some 100) = some (621371 / 10000) ∧
    PASCAL_TO_HPA (some 100000) = some 1000 ∧
    METERS_TO_MILES (some 1000) = some (621371 / 1000000) ∧
    (∃ q : ℚ, MM_TO_INCHES (some (127 / 5)) = some q ∧ |q - 1| < 1 / 100000) ∧
    (get_current_conditions props).feels_like =
      (match CELSIUS_TO_FAHRENHEIT props.windChill with
       | some wc => some wc
       | none =>
         match CELSIUS_TO_FAHRENHEIT props.heatIndex with
         | some hi => some hi
         | none => CELSIUS_TO_FAHRENHEIT props.temperature) := by
  refine ⟨fun c => rfl, fun v => rfl, fun v => rfl, fun v => rfl, fun v => rfl,
    rfl, rfl, rfl, rfl, rfl, rfl, rfl, ?_, ?_, ?_, ?_, ?_, rfl⟩
  · simp only [CELSIUS_TO_FAHRENHEIT, Option.map_some]
    norm_num
  · simp only [KMH_TO_MPH, Option.map_some]
    norm_num
  · simp only [PASCAL_TO_HPA, Option.map_some]
    norm_num
  · simp only [METERS_TO_MILES, Option.map_some]
    norm_num
  · refine ⟨127 / 5 * (393701 / 10000000), rfl, ?_⟩
    rw [abs_sub_lt_iff]
    norm_num
